import Mathlib

/-!
Shallow embedding of `ring_rx.c` from netsniff-ng: the RX packet ring
layout calculator, the degrade-and-retry ring allocator, the setup
orchestrator, the version-asymmetric teardown and the statistics reporter.

Machine integers are modelled as `Nat` with explicit reduction modulo
`2^32` where the C code stores into `unsigned int` fields (the
`tpacket_req` geometry fields) and modulo `2^64` where it computes in
`uint64_t` (the statistics lines).  Kernel calls (`setsockopt`,
`getsockopt`, `munmap`) are modelled by their observable outcomes:
allocation outcomes are an explicit sequence of `(return value, errno)`
pairs, and teardown emits an event trace.
-/

namespace RingRx

/-- `TPACKET_ALIGNMENT` from `linux/if_packet.h`: the kernel frame
alignment constant, 16 bytes. -/
def TPACKET_ALIGNMENT : Nat := 16

/-- `ENOMEM` errno value on Linux. -/
def ENOMEM : Nat := 12

/-- Truncation to a C `unsigned int` (32-bit on Linux). -/
def U32 (n : Nat) : Nat := n % 2 ^ 32

/-- Wrapping subtraction of two `uint64_t` values, as C computes `a - b`
on unsigned 64-bit operands. -/
def u64_sub (a b : Nat) : Nat := (2 ^ 64 + a % 2 ^ 64 - b % 2 ^ 64) % 2 ^ 64

/-- `struct tpacket_req` (shared prefix of `tpacket_req3`): the ring
geometry handed to the kernel.  All four fields are `unsigned int`. -/
structure TpacketReq where
  tp_block_size : Nat
  tp_block_nr : Nat
  tp_frame_size : Nat
  tp_frame_nr : Nat
  deriving DecidableEq, Repr

/-- The all-zero layout, as produced by `fmemset(&ring->layout, 0, ...)`. -/
def zeroReq : TpacketReq := ⟨0, 0, 0, 0⟩

/-- The modelled fields of `struct ring` that `ring_rx.c` touches: the
geometry (`layout` / the shared prefix of `layout3`), the v3-only tuning
fields of `layout3`, the mapped length `mm_len`, whether the region is
currently mapped (`mm_space` holds a live mapping), and the frame table
pointer `frames` (`some id` when allocated, `none` when NULL). -/
structure Ring where
  layout : TpacketReq
  tp_retire_blk_tov : Nat
  tp_sizeof_priv : Nat
  tp_feature_req_word : Nat
  mm_len : Nat
  mm_space_mapped : Bool
  frames : Option Nat
  deriving DecidableEq, Repr

/-- A ring after `fmemset(ring, 0, sizeof(*ring))`. -/
def zeroRing : Ring := ⟨zeroReq, 0, 0, 0, 0, false, none⟩

/-- `setup_rx_ring_layout` (ring_rx.c:67-102): zeroes the layout, picks
block and frame sizes from the jumbo flag, derives block and frame
counts from the size budget, and for v3 sets the extra `tpacket_req3`
tuning fields.  `page_size` is `RUNTIME_PAGE_SIZE`.  The socket-option
calls selecting the ABI variant and the external `ring_verify_layout`
check have no effect on the modelled state. -/
def setup_rx_ring_layout (ring : Ring) (page_size size : Nat)
    (jumbo_support v3 : Bool) : Ring :=
  let tp_block_size : Nat :=
    U32 (if jumbo_support then page_size <<< 4 else page_size <<< 2)
  let tp_frame_size : Nat :=
    U32 (if jumbo_support then TPACKET_ALIGNMENT <<< 12 else TPACKET_ALIGNMENT <<< 7)
  let tp_block_nr : Nat := U32 (size / tp_block_size)
  let tp_frame_nr : Nat := U32 (tp_block_size / tp_frame_size * tp_block_nr)
  let layout : TpacketReq := ⟨tp_block_size, tp_block_nr, tp_frame_size, tp_frame_nr⟩
  if v3 then
    { ring with layout := layout, tp_retire_blk_tov := 100,
                tp_sizeof_priv := 0, tp_feature_req_word := 0 }
  else
    { ring with layout := layout }

/-- The degradation step of `create_rx_ring` (ring_rx.c:115-118):
`tp_block_nr >>= 1` followed by recomputing
`tp_frame_nr = tp_block_size / tp_frame_size * tp_block_nr`. -/
def degrade (req : TpacketReq) : TpacketReq :=
  { req with
    tp_block_nr := req.tp_block_nr >>> 1,
    tp_frame_nr :=
      U32 (req.tp_block_size / req.tp_frame_size * (req.tp_block_nr >>> 1)) }

/-- Outcome of the `create_rx_ring` retry loop: either the loop fell
through with a realized geometry, or it hit `panic("Cannot allocate
RX_RING!")`. -/
inductive CreateResult where
  | panicked : CreateResult
  | ok : TpacketReq → CreateResult
  deriving DecidableEq, Repr

/-- The `retry:` loop of `create_rx_ring` (ring_rx.c:110-122).  `alloc`
gives, for each attempt, the observable `(return value, errno)` pair of
the `setsockopt(PACKET_RX_RING)` call.  The loop keeps degrading while
`errno == ENOMEM && tp_block_nr > 1` — it inspects only `errno`, not the
return value — and once it exits, panics iff the last return value was
negative. -/
def create_rx_ring_loop (alloc : Nat → Int × Nat) (req : TpacketReq) :
    CreateResult :=
  if (alloc 0).2 = ENOMEM ∧ 1 < req.tp_block_nr then
    create_rx_ring_loop (fun n => alloc (n + 1)) (degrade req)
  else if (alloc 0).1 < 0 then
    .panicked
  else
    .ok req
termination_by req.tp_block_nr
decreasing_by
  simp only [degrade, Nat.shiftRight_one]
  omega

/-- `create_rx_ring` (ring_rx.c:104-137): runs the retry loop on the
current layout and, on success, sets
`mm_len = (size_t)tp_block_size * tp_block_nr`.  `none` models the fatal
`panic`.  The verbose `printf` has no effect on the modelled state. -/
def create_rx_ring (alloc : Nat → Int × Nat) (ring : Ring) : Option Ring :=
  match create_rx_ring_loop alloc ring.layout with
  | .panicked => none
  | .ok req =>
      some { ring with layout := req,
                       mm_len := req.tp_block_size * req.tp_block_nr }

/-- Modelled from the spec: `mmap_ring_generic` (not in src/) maps
`block_size * block_count` bytes of the kernel ring into
`ring.mapped_region`; on the modelled state it marks the region as
mapped and is fatal on error (failure not modelled: setup either fully
succeeds or the process exits). -/
def mmap_ring_generic (ring : Ring) : Ring :=
  { ring with mm_space_mapped := true }

/-- `alloc_rx_ring_frames` (ring_rx.c:139-154): derives `(num, size)` =
`(tp_block_nr, tp_block_size)` for v3 and `(tp_frame_nr, tp_frame_size)`
for v2, and delegates to the external `alloc_ring_frames_generic`, which
allocates the frame table (modelled from the spec: it populates
`ring.frames` with `num` addresses). -/
def alloc_rx_ring_frames (v3 : Bool) (ring : Ring) : Ring :=
  let num : Nat := if v3 then ring.layout.tp_block_nr else ring.layout.tp_frame_nr
  { ring with frames := some num }

/-- `ring_rx_setup` (ring_rx.c:156-167): zero the ring, compute the
layout, create the kernel ring (degrading as needed), map the region and
build the frame table.  `bind_ring_generic` and `prepare_polling` touch
no modelled ring state.  `none` models fatal termination during
creation. -/
def ring_rx_setup (page_size size : Nat) (v3 jumbo_support : Bool)
    (alloc : Nat → Int × Nat) : Option Ring :=
  let r1 := setup_rx_ring_layout zeroRing page_size size jumbo_support v3
  (create_rx_ring alloc r1).map fun r2 =>
    alloc_rx_ring_frames v3 (mmap_ring_generic r2)

/-- Observable kernel-facing actions of `destroy_rx_ring`: an actual
unmapping of the region (with its length), a `free` of the frame table,
and a `setsockopt(PACKET_RX_RING)` reconfiguration carrying the layout
passed to it. -/
inductive TeardownEvent where
  | munmap_region : Nat → TeardownEvent
  | free_frames : Nat → TeardownEvent
  | setsockopt_rx_ring : TpacketReq → TeardownEvent
  deriving DecidableEq, Repr

/-- Whether an event releases a resource (unmaps the region or frees the
frame table). -/
def TeardownEvent.isRelease : TeardownEvent → Bool
  | .munmap_region _ => true
  | .free_frames _ => true
  | .setsockopt_rx_ring _ => false

/-- Whether an event is a socket reconfiguration call. -/
def TeardownEvent.isSetsockopt : TeardownEvent → Bool
  | .setsockopt_rx_ring _ => true
  | _ => false

/-- Result of a teardown run: the ring state left behind, the trace of
kernel-facing actions, and whether the run ended in `panic`. -/
structure TeardownResult where
  ring : Ring
  events : List TeardownEvent
  panicked : Bool
  deriving DecidableEq, Repr

/-- `destroy_rx_ring` (ring_rx.c:46-65).  `munmap(ring->mm_space,
ring->mm_len)` actually unmaps only when `mm_len > 0` (with length 0 the
call fails with EINVAL and unmaps nothing; its return value is ignored
by the code); then `mm_len` is set to 0.  Modelled from the spec:
`xfree` (xmalloc.h, not in src/) releases the frame table and clears the
pointer, and freeing an absent (NULL) table is a no-op, per the spec's
idempotent-teardown requirement.  For v3 the function then returns; for
v2 it zeroes the layout and issues `setsockopt(PACKET_RX_RING)` with the
zeroed layout, panicking iff that call fails (`sockopt_ok = false`). -/
def destroy_rx_ring (v3 sockopt_ok : Bool) (ring : Ring) : TeardownResult :=
  let unmapEv : List TeardownEvent :=
    if 0 < ring.mm_len then [.munmap_region ring.mm_len] else []
  let freeEv : List TeardownEvent :=
    match ring.frames with
    | some a => [.free_frames a]
    | none => []
  let r1 : Ring :=
    { ring with
      mm_len := 0,
      mm_space_mapped := if 0 < ring.mm_len then false else ring.mm_space_mapped,
      frames := none }
  if v3 then
    ⟨r1, unmapEv ++ freeEv, false⟩
  else
    ⟨{ r1 with layout := zeroReq },
     unmapEv ++ freeEv ++ [.setsockopt_rx_ring zeroReq],
     !sockopt_ok⟩

/-- `struct tpacket_stats` / shared prefix of `tpacket_stats_v3`: the
kernel packet counters, both `unsigned int`. -/
structure TpacketStats where
  tp_packets : Nat
  tp_drops : Nat
  deriving DecidableEq, Repr

/-- One report line of `sock_rx_net_stats`, carrying the numbers printed
(format is presentation; the drop rate is the exact rational the C code
computes in double precision and prints with four decimals). -/
inductive StatLine where
  | incoming : Nat → Nat → StatLine
  | passed : Nat → StatLine
  | failed : Nat → StatLine
  | droprate : ℚ → StatLine
  deriving DecidableEq, Repr

/-- Whether a line is the drop-rate percentage line. -/
def StatLine.isDroprate : StatLine → Bool
  | .droprate _ => true
  | _ => false

/-- `sock_rx_net_stats` (ring_rx.c:169-193).  `query` is the observable
outcome of `getsockopt(PACKET_STATISTICS)`: `none` when it fails
(`ret = -1`), `some stats` on success.  On failure nothing is printed
and the function returns normally (it has no fatal path — the result
type has no panic case — and it takes no ring, so ring state is
untouched).  On success it prints: incoming (for v3, `seen` plus the
unread backlog `packets - seen` in `uint64_t` arithmetic), passed filter
`packets - drops`, failed filter `drops`, and — only when
`tp_packets > 0` — the drop rate `drops / packets * 100`. -/
def sock_rx_net_stats (v3 : Bool) (query : Option TpacketStats) (seen : Nat) :
    List StatLine :=
  match query with
  | none => []
  | some stats =>
      let packets : Nat := stats.tp_packets % 2 ^ 64
      let drops : Nat := stats.tp_drops % 2 ^ 64
      [.incoming (if v3 then seen % 2 ^ 64 else packets)
                 (if v3 then u64_sub packets seen else 0),
       .passed (u64_sub packets drops),
       .failed drops] ++
      (if 0 < stats.tp_packets then
        [.droprate ((drops : ℚ) / (packets : ℚ) * 100)]
      else [])

/-- The spec's mock allocator: attempts `0 .. k-1` fail with return value
-1 and errno `ENOMEM`; attempt `k` and all later attempts succeed. -/
def allocFailK (k : Nat) : Nat → Int × Nat :=
  fun n => if n < k then (-1, ENOMEM) else (0, 0)

lemma allocFailK_shift (k : Nat) :
    (fun n => allocFailK (k + 1) (n + 1)) = allocFailK k := by
  funext n
  by_cases h : n < k
  · simp only [allocFailK, if_pos h, if_pos (show n + 1 < k + 1 by omega)]
  · simp only [allocFailK, if_neg h, if_neg (show ¬(n + 1 < k + 1) by omega)]

/-- Degradation convergence of the retry loop: with the mock allocator
failing the first `k` attempts, the realized block count is the initial
one divided by `2^k` and the frame count is recomputed from it. -/
lemma create_rx_ring_loop_allocFailK (k : Nat) (req : TpacketReq)
    (hfr : req.tp_frame_nr =
      U32 (req.tp_block_size / req.tp_frame_size * req.tp_block_nr))
    (hk : 2 ^ k ≤ req.tp_block_nr) :
    create_rx_ring_loop (allocFailK k) req =
      .ok ⟨req.tp_block_size, req.tp_block_nr / 2 ^ k, req.tp_frame_size,
           U32 (req.tp_block_size / req.tp_frame_size *
                (req.tp_block_nr / 2 ^ k))⟩ := by
  induction k generalizing req with
  | zero =>
    obtain ⟨bs, bn, fs, fn⟩ := req
    rw [create_rx_ring_loop]
    simp only [allocFailK]
    norm_num [ENOMEM]
    simp_all
  | succ k ih =>
    have hbn : 1 < req.tp_block_nr := by
      have h2 : 2 ≤ 2 ^ (k + 1) := Nat.one_lt_two_pow (by omega)
      omega
    rw [create_rx_ring_loop]
    rw [if_pos (by exact ⟨by simp [allocFailK], hbn⟩)]
    rw [allocFailK_shift]
    have hhalf : (degrade req).tp_block_nr = req.tp_block_nr / 2 := by
      simp [degrade, Nat.shiftRight_one]
    have hk' : 2 ^ k ≤ (degrade req).tp_block_nr := by
      rw [hhalf, Nat.le_div_iff_mul_le (by norm_num)]
      calc 2 ^ k * 2 = 2 ^ (k + 1) := (pow_succ 2 k).symm
        _ ≤ req.tp_block_nr := hk
    have := ih (degrade req) (by simp [degrade, Nat.shiftRight_one]) hk'
    rw [this]
    simp only [degrade, Nat.shiftRight_one]
    congr 1
    rw [Nat.div_div_eq_div_mul, ← pow_succ']

/-- The realized block count never drops below 1: the loop preserves
positivity of `tp_block_nr`. -/
lemma create_rx_ring_loop_block_nr_pos :
    ∀ (n : Nat) (alloc : Nat → Int × Nat) (req : TpacketReq),
      req.tp_block_nr ≤ n → 0 < req.tp_block_nr →
      ∀ r', create_rx_ring_loop alloc req = .ok r' → 0 < r'.tp_block_nr := by
  intro n
  induction n with
  | zero => intro alloc req hle hpos; omega
  | succ n ih =>
    intro alloc req hle hpos r' hr
    rw [create_rx_ring_loop] at hr
    by_cases hc : (alloc 0).2 = ENOMEM ∧ 1 < req.tp_block_nr
    · rw [if_pos hc] at hr
      exact ih _ (degrade req)
        (by simp only [degrade, Nat.shiftRight_one]; omega)
        (by simp only [degrade, Nat.shiftRight_one]; omega) r' hr
    · rw [if_neg hc] at hr
      by_cases hret : (alloc 0).1 < 0
      · rw [if_pos hret] at hr
        exact absurd hr (by simp)
      · rw [if_neg hret] at hr
        cases hr
        exact hpos

/-- C1: in `create_rx_ring`, if the allocation fails with ENOMEM for the
first `k` attempts (with `2^k ≤` the initial block count, so the block
count stays ≥ 1) and then succeeds, the realized block count equals the
initial block count divided by `2^k` and the frame count is recomputed
as `block_size / frame_size * block_count` at each halving; if the block
count is already 1 and allocation still fails, the loop exits and panics
rather than looping; and the block count never goes below 1. -/
theorem create_rx_ring_degradation :
    (∀ (k : Nat) (req : TpacketReq),
      req.tp_frame_nr =
        U32 (req.tp_block_size / req.tp_frame_size * req.tp_block_nr) →
      2 ^ k ≤ req.tp_block_nr →
      create_rx_ring_loop (allocFailK k) req =
        .ok ⟨req.tp_block_size, req.tp_block_nr / 2 ^ k, req.tp_frame_size,
             U32 (req.tp_block_size / req.tp_frame_size *
                  (req.tp_block_nr / 2 ^ k))⟩) ∧
    (∀ req : TpacketReq, req.tp_block_nr = 1 →
      create_rx_ring_loop (fun _ => ((-1 : Int), ENOMEM)) req = .panicked) ∧
    (∀ (alloc : Nat → Int × Nat) (req : TpacketReq) (r' : TpacketReq),
      0 < req.tp_block_nr → create_rx_ring_loop alloc req = .ok r' →
      0 < r'.tp_block_nr) := by
  refine ⟨create_rx_ring_loop_allocFailK, ?_, ?_⟩
  · intro req hbn
    rw [create_rx_ring_loop]
    rw [if_neg (by simp [hbn])]
    norm_num
  · intro alloc req r' hpos hr
    exact create_rx_ring_loop_block_nr_pos req.tp_block_nr alloc req le_rfl
      hpos r' hr

/-- Witness for C1 at concrete inputs: initial block count 8, two ENOMEM
failures then success yields block count 2 and frame count 16; block
count 1 with persistent failure panics. -/
theorem create_rx_ring_degradation_witness :
    create_rx_ring_loop (allocFailK 2) ⟨16384, 8, 2048, 64⟩ =
      .ok ⟨16384, 2, 2048, 16⟩ ∧
    create_rx_ring_loop (fun _ => ((-1 : Int), ENOMEM)) ⟨16384, 1, 2048, 8⟩ =
      .panicked := by
  constructor
  · have h := create_rx_ring_degradation.1 2 ⟨16384, 8, 2048, 64⟩
      (by decide) (by decide)
    simpa [U32] using h
  · exact create_rx_ring_degradation.2.1 ⟨16384, 1, 2048, 8⟩ rfl

/-- C9: the degrade-and-retry decision depends only on errno, not on the
allocation call's return value: whenever errno is ENOMEM and the block
count exceeds 1, the loop halves the block count and reissues the
request — even if the return value signalled success. -/
theorem create_rx_ring_retry_on_errno (alloc : Nat → Int × Nat)
    (req : TpacketReq) (herr : (alloc 0).2 = ENOMEM)
    (hbn : 1 < req.tp_block_nr) :
    create_rx_ring_loop alloc req =
      create_rx_ring_loop (fun n => alloc (n + 1)) (degrade req) ∧
    (degrade req).tp_block_nr = req.tp_block_nr / 2 := by
  constructor
  · rw [create_rx_ring_loop, if_pos ⟨herr, hbn⟩]
  · simp [degrade, Nat.shiftRight_one]

/-- Witness for C9: an allocator whose first call returns 0 (success)
but leaves errno = ENOMEM still triggers a halving from block count 2
to 1. -/
theorem create_rx_ring_retry_on_errno_witness :
    create_rx_ring_loop (fun _ => ((0 : Int), ENOMEM)) ⟨16384, 2, 2048, 16⟩ =
      .ok ⟨16384, 1, 2048, 8⟩ ∧
    (degrade ⟨16384, 2, 2048, 16⟩).tp_block_nr = 1 := by
  have h := create_rx_ring_retry_on_errno (fun _ => ((0 : Int), ENOMEM))
    ⟨16384, 2, 2048, 16⟩ rfl (by decide)
  constructor
  · rw [h.1]
    rw [create_rx_ring_loop]
    decide
  · exact h.2

/-- C2: whenever `ring_rx_setup` succeeds — for every page size, size
budget, ABI version, jumbo setting and allocation-outcome sequence,
including runs that degraded the geometry — the mapped length equals
`tp_block_size * tp_block_nr` of the realized layout. -/
theorem ring_rx_setup_mm_len (page_size size : Nat) (v3 jumbo_support : Bool)
    (alloc : Nat → Int × Nat) (r : Ring)
    (h : ring_rx_setup page_size size v3 jumbo_support alloc = some r) :
    r.mm_len = r.layout.tp_block_size * r.layout.tp_block_nr := by
  simp only [ring_rx_setup, create_rx_ring] at h
  cases hloop : create_rx_ring_loop alloc
      (setup_rx_ring_layout zeroRing page_size size jumbo_support v3).layout with
  | panicked => rw [hloop] at h; simp at h
  | ok req =>
    rw [hloop] at h
    simp only [Option.map_some', Option.some.injEq] at h
    subst h
    rfl

/-- Witness for C2: a 64 KiB budget on 4 KiB pages, non-jumbo, with an
allocator that succeeds immediately. -/
theorem ring_rx_setup_mm_len_witness :
    (⟨⟨16384, 4, 2048, 32⟩, 0, 0, 0, 65536, true, some 32⟩ : Ring).mm_len =
      (⟨⟨16384, 4, 2048, 32⟩, 0, 0, 0, 65536, true, some 32⟩ : Ring).layout.tp_block_size *
      (⟨⟨16384, 4, 2048, 32⟩, 0, 0, 0, 65536, true, some 32⟩ : Ring).layout.tp_block_nr := by
  have hl : create_rx_ring_loop (fun _ => ((0 : Int), (0 : Nat)))
      (setup_rx_ring_layout zeroRing 4096 65536 false false).layout =
      .ok ⟨16384, 4, 2048, 32⟩ := by
    rw [create_rx_ring_loop]
    decide
  refine ring_rx_setup_mm_len 4096 65536 false false (fun _ => (0, 0)) _ ?_
  simp only [ring_rx_setup, create_rx_ring, hl]
  rfl

lemma setup_rx_ring_layout_layout_false (p s : Nat) (v : Bool) :
    (setup_rx_ring_layout zeroRing p s false v).layout =
      ⟨U32 (p <<< 2), U32 (s / U32 (p <<< 2)), U32 (TPACKET_ALIGNMENT <<< 7),
       U32 (U32 (p <<< 2) / U32 (TPACKET_ALIGNMENT <<< 7) *
            U32 (s / U32 (p <<< 2)))⟩ := by
  cases v <;> rfl

lemma setup_rx_ring_layout_layout_true (p s : Nat) (v : Bool) :
    (setup_rx_ring_layout zeroRing p s true v).layout =
      ⟨U32 (p <<< 4), U32 (s / U32 (p <<< 4)), U32 (TPACKET_ALIGNMENT <<< 12),
       U32 (U32 (p <<< 4) / U32 (TPACKET_ALIGNMENT <<< 12) *
            U32 (s / U32 (p <<< 4)))⟩ := by
  cases v <;> rfl

/-- C4 (counterexample): the block size with jumbo enabled is not 16
times the block size with jumbo disabled — on 4 KiB pages it is 65536
versus 16384, a factor of 4. -/
theorem setup_rx_ring_layout_block_ratio_cex :
    ¬ ((setup_rx_ring_layout zeroRing 4096 65536 true false).layout.tp_block_size =
       16 * (setup_rx_ring_layout zeroRing 4096 65536 false false).layout.tp_block_size) := by
  decide

/-- C4 (amended): the block size is a fixed power-of-two multiple of the
page size in both profiles — 16× the page size with jumbo enabled, 4×
without — so the jumbo block size is 4× (not 16×) the non-jumbo one. -/
theorem setup_rx_ring_layout_block_size (page_size size : Nat) (v3 : Bool)
    (hp : 16 * page_size < 2 ^ 32) :
    (setup_rx_ring_layout zeroRing page_size size true v3).layout.tp_block_size =
      16 * page_size ∧
    (setup_rx_ring_layout zeroRing page_size size false v3).layout.tp_block_size =
      4 * page_size ∧
    (setup_rx_ring_layout zeroRing page_size size true v3).layout.tp_block_size =
      4 * (setup_rx_ring_layout zeroRing page_size size false v3).layout.tp_block_size := by
  rw [setup_rx_ring_layout_layout_true, setup_rx_ring_layout_layout_false]
  simp only [U32, Nat.shiftLeft_eq]
  refine ⟨?_, ?_, ?_⟩ <;> omega

/-- Witness for C4's amended statement at 4 KiB pages. -/
theorem setup_rx_ring_layout_block_size_witness :
    (setup_rx_ring_layout zeroRing 4096 0 true false).layout.tp_block_size =
      16 * 4096 ∧
    (setup_rx_ring_layout zeroRing 4096 0 false false).layout.tp_block_size =
      4 * 4096 ∧
    (setup_rx_ring_layout zeroRing 4096 0 true false).layout.tp_block_size =
      4 * (setup_rx_ring_layout zeroRing 4096 0 false false).layout.tp_block_size :=
  setup_rx_ring_layout_block_size 4096 0 false (by decide)

/-- C3 (counterexample): the exact identity `frame_count * frame_size =
block_size * block_count` fails for the 8 TiB budget `2^43` on 4 KiB
pages, non-jumbo: the frame count `8 * 2^29 = 2^32` wraps to 0 in the
`unsigned int` field while `block_size * block_count = 2^43`. -/
theorem setup_rx_ring_layout_frame_identity_cex :
    ¬ ((setup_rx_ring_layout zeroRing 4096 (2 ^ 43) false false).layout.tp_frame_nr *
       (setup_rx_ring_layout zeroRing 4096 (2 ^ 43) false false).layout.tp_frame_size =
       (setup_rx_ring_layout zeroRing 4096 (2 ^ 43) false false).layout.tp_block_size *
       (setup_rx_ring_layout zeroRing 4096 (2 ^ 43) false false).layout.tp_block_nr) := by
  decide

/-- C3 (amended): for every size budget below `2^43` bytes (on a page
size that is a positive multiple of 4096, at most `2^20`), the frame
size is a multiple of `TPACKET_ALIGNMENT` and 32× larger with jumbo
enabled, the block count is the truncating quotient of the budget by the
block size, and `frame_count * frame_size = block_size * block_count`
exactly. -/
theorem setup_rx_ring_layout_geometry (page_size size : Nat) (jumbo v3 : Bool)
    (hpage : 4096 ∣ page_size) (hppos : 0 < page_size)
    (hpbound : page_size ≤ 2 ^ 20) (hsize : size < 2 ^ 43) :
    TPACKET_ALIGNMENT ∣
      (setup_rx_ring_layout zeroRing page_size size jumbo v3).layout.tp_frame_size ∧
    (setup_rx_ring_layout zeroRing page_size size true v3).layout.tp_frame_size =
      32 * (setup_rx_ring_layout zeroRing page_size size false v3).layout.tp_frame_size ∧
    (setup_rx_ring_layout zeroRing page_size size jumbo v3).layout.tp_block_nr =
      size / (setup_rx_ring_layout zeroRing page_size size jumbo v3).layout.tp_block_size ∧
    (setup_rx_ring_layout zeroRing page_size size jumbo v3).layout.tp_frame_nr *
      (setup_rx_ring_layout zeroRing page_size size jumbo v3).layout.tp_frame_size =
    (setup_rx_ring_layout zeroRing page_size size jumbo v3).layout.tp_block_size *
      (setup_rx_ring_layout zeroRing page_size size jumbo v3).layout.tp_block_nr := by
  obtain ⟨m, rfl⟩ := hpage
  have hm : 0 < m := by omega
  have hmb : m ≤ 256 := by omega
  cases jumbo
  · -- non-jumbo: block size 16384·m, frame size 2048
    rw [setup_rx_ring_layout_layout_false, setup_rx_ring_layout_layout_true]
    have hbs : U32 ((4096 * m) <<< 2) = 2048 * (8 * m) := by
      simp only [U32, Nat.shiftLeft_eq]
      omega
    have hfs : U32 (TPACKET_ALIGNMENT <<< 7) = 2048 := by decide
    have hbn : U32 (size / (2048 * (8 * m))) = size / (2048 * (8 * m)) := by
      have h1 : size / (2048 * (8 * m)) ≤ size / 2048 :=
        Nat.div_le_div_left (by omega) (by omega)
      have h2 : size / 2048 < 2 ^ 32 := by omega
      exact Nat.mod_eq_of_lt (by omega)
    have hq : 2048 * (8 * m) / 2048 = 8 * m :=
      Nat.mul_div_cancel_left _ (by omega : 0 < 2048)
    have hfn : 8 * m * (size / (2048 * (8 * m))) < 2 ^ 32 := by
      have h3 : size / (2048 * (8 * m)) * (8 * m) ≤ size / 2048 := by
        rw [← Nat.div_div_eq_div_mul]
        exact Nat.div_mul_le_self _ _
      have h2 : size / 2048 < 2 ^ 32 := by omega
      rw [Nat.mul_comm]
      omega
    refine ⟨?_, ?_, ?_, ?_⟩
    · rw [hfs]
      show TPACKET_ALIGNMENT ∣ 2048
      decide
    · show U32 (TPACKET_ALIGNMENT <<< 12) = 32 * U32 (TPACKET_ALIGNMENT <<< 7)
      decide
    · rw [hbs, hbn]
    · rw [hbs, hfs, hbn, hq]
      rw [show U32 (8 * m * (size / (2048 * (8 * m)))) =
            8 * m * (size / (2048 * (8 * m))) from Nat.mod_eq_of_lt hfn]
      ring
  · -- jumbo: block size 65536·m, frame size 65536
    rw [setup_rx_ring_layout_layout_false, setup_rx_ring_layout_layout_true]
    have hbs : U32 ((4096 * m) <<< 4) = 65536 * m := by
      simp only [U32, Nat.shiftLeft_eq]
      omega
    have hfs : U32 (TPACKET_ALIGNMENT <<< 12) = 65536 := by decide
    have hbn : U32 (size / (65536 * m)) = size / (65536 * m) := by
      have h1 : size / (65536 * m) ≤ size / 65536 :=
        Nat.div_le_div_left (by omega) (by omega)
      have h2 : size / 65536 < 2 ^ 32 := by omega
      exact Nat.mod_eq_of_lt (by omega)
    have hq : 65536 * m / 65536 = m :=
      Nat.mul_div_cancel_left _ (by omega : 0 < 65536)
    have hfn : m * (size / (65536 * m)) < 2 ^ 32 := by
      have h3 : size / (65536 * m) * m ≤ size / 65536 := by
        rw [← Nat.div_div_eq_div_mul]
        exact Nat.div_mul_le_self _ _
      have h2 : size / 65536 < 2 ^ 32 := by omega
      rw [Nat.mul_comm]
      omega
    refine ⟨?_, ?_, ?_, ?_⟩
    · rw [hfs]
      show TPACKET_ALIGNMENT ∣ 65536
      decide
    · show U32 (TPACKET_ALIGNMENT <<< 12) = 32 * U32 (TPACKET_ALIGNMENT <<< 7)
      decide
    · rw [hbs, hbn]
    · rw [hbs, hfs, hbn, hq]
      rw [show U32 (m * (size / (65536 * m))) =
            m * (size / (65536 * m)) from Nat.mod_eq_of_lt hfn]
      ring

/-- Witness for C3's amended statement: 4 KiB pages, 64 KiB budget. -/
theorem setup_rx_ring_layout_geometry_witness :
    TPACKET_ALIGNMENT ∣
      (setup_rx_ring_layout zeroRing 4096 65536 false false).layout.tp_frame_size ∧
    (setup_rx_ring_layout zeroRing 4096 65536 true false).layout.tp_frame_size =
      32 * (setup_rx_ring_layout zeroRing 4096 65536 false false).layout.tp_frame_size ∧
    (setup_rx_ring_layout zeroRing 4096 65536 false false).layout.tp_block_nr =
      65536 / (setup_rx_ring_layout zeroRing 4096 65536 false false).layout.tp_block_size ∧
    (setup_rx_ring_layout zeroRing 4096 65536 false false).layout.tp_frame_nr *
      (setup_rx_ring_layout zeroRing 4096 65536 false false).layout.tp_frame_size =
    (setup_rx_ring_layout zeroRing 4096 65536 false false).layout.tp_block_size *
      (setup_rx_ring_layout zeroRing 4096 65536 false false).layout.tp_block_nr :=
  setup_rx_ring_layout_geometry 4096 65536 false false (by decide) (by decide)
    (by decide) (by decide)

end RingRx

namespace RingRx

/-- C5: teardown is version-asymmetric.  For the newer ABI (v3) no
socket reconfiguration call is issued after unmapping and releasing the
frame table, and teardown never panics; for the older ABI (v2) the
layout is zeroed and an explicit `setsockopt(PACKET_RX_RING)` with the
zeroed layout is issued, panicking exactly when that call fails. -/
theorem destroy_rx_ring_version_asymmetry (sockopt_ok : Bool) (ring : Ring) :
    ((destroy_rx_ring true sockopt_ok ring).events.all
      fun e => !e.isSetsockopt) = true ∧
    (destroy_rx_ring true sockopt_ok ring).panicked = false ∧
    TeardownEvent.setsockopt_rx_ring zeroReq ∈
      (destroy_rx_ring false sockopt_ok ring).events ∧
    (destroy_rx_ring false sockopt_ok ring).ring.layout = zeroReq ∧
    (destroy_rx_ring false sockopt_ok ring).panicked = !sockopt_ok := by
  refine ⟨?_, rfl, ?_, rfl, rfl⟩
  · by_cases hm : 0 < ring.mm_len <;> rcases hf : ring.frames with _ | a <;>
      simp [destroy_rx_ring, hm, hf, TeardownEvent.isSetsockopt]
  · simp [destroy_rx_ring]

/-- C6: teardown is idempotent up to the mapped length being zero.  The
first invocation leaves `mm_len = 0` (and a cleared frame-table
pointer), and a second invocation on that state performs no unmapping
and no free — only, for v2, the socket reconfiguration. -/
lemma destroy_rx_ring_no_release_of_clean (v3 sockopt_ok : Bool) (r : Ring)
    (hm : r.mm_len = 0) (hf : r.frames = none) :
    ((destroy_rx_ring v3 sockopt_ok r).events.all fun e => !e.isRelease) = true := by
  cases v3 <;> simp [destroy_rx_ring, hm, hf, TeardownEvent.isRelease]

theorem destroy_rx_ring_idempotent (v3 v3' sockopt_ok sockopt_ok' : Bool)
    (ring : Ring) :
    (destroy_rx_ring v3 sockopt_ok ring).ring.mm_len = 0 ∧
    (destroy_rx_ring v3 sockopt_ok ring).ring.frames = none ∧
    ((destroy_rx_ring v3' sockopt_ok'
        (destroy_rx_ring v3 sockopt_ok ring).ring).events.all
      fun e => !e.isRelease) = true := by
  have h1 : (destroy_rx_ring v3 sockopt_ok ring).ring.mm_len = 0 := by
    cases v3 <;> rfl
  have h2 : (destroy_rx_ring v3 sockopt_ok ring).ring.frames = none := by
    cases v3 <;> rfl
  exact ⟨h1, h2, destroy_rx_ring_no_release_of_clean v3' sockopt_ok' _ h1 h2⟩

end RingRx

namespace RingRx

/-- Evaluation of the reporter on a successful query, unfolding the
`uint64_t` lets. -/
lemma sock_rx_net_stats_some (v3 : Bool) (s : TpacketStats) (seen : Nat) :
    sock_rx_net_stats v3 (some s) seen =
      [.incoming (if v3 then seen % 2 ^ 64 else s.tp_packets % 2 ^ 64)
                 (if v3 then u64_sub (s.tp_packets % 2 ^ 64) seen else 0),
       .passed (u64_sub (s.tp_packets % 2 ^ 64) (s.tp_drops % 2 ^ 64)),
       .failed (s.tp_drops % 2 ^ 64)] ++
      (if 0 < s.tp_packets then
        [.droprate (((s.tp_drops % 2 ^ 64 : Nat) : ℚ) /
                    ((s.tp_packets % 2 ^ 64 : Nat) : ℚ) * 100)]
      else []) := rfl

/-- C7: on a successful counter query with `drops ≤ packets` (kernel
counters are 32-bit), the report contains a passed-filter line with
`packets - drops`, and a drop-rate line with the exact value
`drops / packets * 100` if and only if `packets > 0`. -/
theorem sock_rx_net_stats_report (v3 : Bool) (seen packets drops : Nat)
    (hp : packets < 2 ^ 32) (hd : drops ≤ packets) :
    StatLine.passed (packets - drops) ∈
      sock_rx_net_stats v3 (some ⟨packets, drops⟩) seen ∧
    (0 < packets →
      StatLine.droprate ((drops : ℚ) / (packets : ℚ) * 100) ∈
        sock_rx_net_stats v3 (some ⟨packets, drops⟩) seen) ∧
    (((sock_rx_net_stats v3 (some ⟨packets, drops⟩) seen).any
        StatLine.isDroprate) = true ↔ 0 < packets) := by
  have hpm : packets % 2 ^ 64 = packets := Nat.mod_eq_of_lt (by omega)
  have hdm : drops % 2 ^ 64 = drops := Nat.mod_eq_of_lt (by omega)
  have hsub : u64_sub packets drops = packets - drops := by
    simp only [u64_sub, hpm, hdm]
    omega
  rw [sock_rx_net_stats_some]
  dsimp only
  rw [hpm, hdm, hsub]
  refine ⟨?_, ?_, ?_⟩
  · by_cases h0 : 0 < packets <;> simp [h0]
  · intro h0
    simp [h0]
  · by_cases h0 : 0 < packets <;>
      simp [h0, StatLine.isDroprate]

/-- Witness for C7: total 1000 with 50 dropped reports 950 passed and a
5% drop rate; total 0 emits no drop-rate line. -/
theorem sock_rx_net_stats_report_witness :
    StatLine.passed 950 ∈ sock_rx_net_stats false (some ⟨1000, 50⟩) 0 ∧
    StatLine.droprate 5 ∈ sock_rx_net_stats false (some ⟨1000, 50⟩) 0 ∧
    ((sock_rx_net_stats false (some ⟨0, 0⟩) 0).any StatLine.isDroprate) = false := by
  have h1 := sock_rx_net_stats_report false 0 1000 50 (by decide) (by decide)
  have h2 := sock_rx_net_stats_report false 0 0 0 (by decide) (by decide)
  refine ⟨by simpa using h1.1, ?_, ?_⟩
  · have h3 := h1.2.1 (by decide)
    norm_num at h3
    exact h3
  · cases hb : (sock_rx_net_stats false (some ⟨0, 0⟩) 0).any StatLine.isDroprate
    · rfl
    · exact absurd (h2.2.2.mp hb) (by omega)

/-- C8: if the kernel counter query fails, no report lines are emitted;
the reporter returns normally (its result type has no fatal case, and it
takes no ring, so ring state is untouched). -/
theorem sock_rx_net_stats_query_failure (v3 : Bool) (seen : Nat) :
    sock_rx_net_stats v3 none seen = [] := rfl

/-- C10: for v3 the unread-on-exit backlog is `packets - seen` in
unsigned 64-bit arithmetic: whenever the consumer saw more packets than
the kernel total, the printed backlog is the wrapped value
`(packets - seen) mod 2^64` — strictly positive, never clamped to zero
and never negative. -/
theorem sock_rx_net_stats_unread_wraps (packets drops seen : Nat)
    (hp : packets < 2 ^ 64) (hs : seen < 2 ^ 64) (hlt : packets < seen) :
    StatLine.incoming seen (2 ^ 64 - (seen - packets)) ∈
      sock_rx_net_stats true (some ⟨packets, drops⟩) seen ∧
    ((2 ^ 64 - (seen - packets) : Nat) : Int) =
      ((packets : Int) - (seen : Int)) % 2 ^ 64 ∧
    0 < 2 ^ 64 - (seen - packets) := by
  have hpm : packets % 2 ^ 64 = packets := Nat.mod_eq_of_lt hp
  have hsm : seen % 2 ^ 64 = seen := Nat.mod_eq_of_lt hs
  have hsub : u64_sub packets seen = 2 ^ 64 - (seen - packets) := by
    simp only [u64_sub, hpm, hsm]
    omega
  refine ⟨?_, by omega, by omega⟩
  rw [sock_rx_net_stats_some]
  dsimp only
  rw [hpm, hsm, hsub]
  simp

/-- Witness for C10: kernel total 5, consumer saw 7: the printed backlog
is `2^64 - 2`. -/
theorem sock_rx_net_stats_unread_wraps_witness :
    StatLine.incoming 7 18446744073709551614 ∈
      sock_rx_net_stats true (some ⟨5, 0⟩) 7 ∧
    ((18446744073709551614 : Int) = ((5 : Int) - (7 : Int)) % 2 ^ 64) := by
  have h := sock_rx_net_stats_unread_wraps 5 0 7 (by norm_num) (by norm_num)
    (by norm_num)
  refine ⟨by simpa using h.1, by decide⟩

end RingRx
